import Mathlib

/-!
Shallow embedding of `run_verification.py`, the differential-regression
verification harness: it runs a test suite before and after applying a code
patch, parses the JUnit XML reports into status maps, classifies every test's
status transition into one of four categories, and derives a `resolved`
verdict.

Modelling choices: a Python `str` is embedded as `List Char` (written `Str`),
so that every operation is structurally computable; Python string methods
(`startswith`, `strip`, `split`, `join`, ...) are given as small list
recursions with the same semantics on the ASCII identifiers the harness
manipulates.  Subprocess effects (git, pytest, file IO) are abstracted: a
patch artifact is `Option (List Str)` (`none` = missing or unreadable file,
`some lines` = its lines, without trailing newlines), repository mutation is
an abstract state transformer, and the JUnit report is a list of testcase
records.
-/

namespace RunVerification

/-- A Python string, embedded as its list of characters. -/
abbrev Str := List Char

/-- Python `s.startswith(p)`. -/
def pyStartsWith (s p : Str) : Bool := p.isPrefixOf s

/-- Python `s.endswith(p)`. -/
def pyEndsWith (s p : Str) : Bool := p.isSuffixOf s

/-- Python `s.strip()`: remove leading and trailing whitespace. -/
def pyStrip (s : Str) : Str :=
  ((s.dropWhile Char.isWhitespace).reverse.dropWhile Char.isWhitespace).reverse

/-- Python `s.split(sep)` for a one-character separator: split at every
occurrence of `sep`, keeping empty pieces (`"".split(sep) == [""]`). -/
def pySplit (sep : Char) : Str → List Str
  | [] => [[]]
  | c :: rest =>
    match pySplit sep rest with
    | h :: t => if c = sep then [] :: h :: t else (c :: h) :: t
    | [] => if c = sep then [[], []] else [[c]]

/-- Python `sep.join(pieces)`. -/
def pyJoin (sep : Str) (pieces : List Str) : Str := List.intercalate sep pieces

/-- Test outcome recorded in a status map by `parse_junit_xml_report`
(a testcase whose only marker is `skipped` is never recorded). -/
inductive Status
  | passed
  | failed
  | error
deriving DecidableEq, Repr

/-- A status map: Python dict from test node identifier to status,
embedded as an association list (first binding wins, as `dict.get`). -/
abbrev StatusMap := List (Str × Status)

/-- Embedding of Python `d.get(k, default)` on a status map. -/
def dictGet (m : StatusMap) (k : Str) (d : Status) : Status :=
  match m.find? (fun p => p.1 == k) with
  | some p => p.2
  | none => d

/-- The keys of a status map. -/
def keys (m : StatusMap) : List Str := m.map Prod.fst

/-- One transition category's record: `{"success": [...], "failure": [...]}`. -/
structure Bucket where
  success : List Str
  failure : List Str
deriving DecidableEq, Repr

/-- The `tests_status` record with its four transition categories. -/
structure TestsStatus where
  FAIL_TO_PASS : Bucket
  PASS_TO_PASS : Bucket
  FAIL_TO_FAIL : Bucket
  PASS_TO_FAIL : Bucket
deriving DecidableEq, Repr

/-- The initial `tests_status` value in the global `results` dict:
all eight lists empty. -/
def initTestsStatus : TestsStatus :=
  { FAIL_TO_PASS := ⟨[], []⟩
    PASS_TO_PASS := ⟨[], []⟩
    FAIL_TO_FAIL := ⟨[], []⟩
    PASS_TO_FAIL := ⟨[], []⟩ }

/-- The body of the classification loop in `main` (lines 276-287): look up the
test in `pre` (default `"passed"`) and in `post` (default `"failed"`), then
walk the `if`/`elif` chain, appending the test to at most one bucket list.  A
status that matches no branch (namely `error`) leaves the record unchanged. -/
def classifyStep (pre post : StatusMap) (acc : TestsStatus) (test : Str) :
    TestsStatus :=
  let pre_status := dictGet pre test .passed
  let post_status := dictGet post test .failed
  if pre_status = .failed ∧ post_status = .passed then
    { acc with FAIL_TO_PASS :=
        { acc.FAIL_TO_PASS with success := acc.FAIL_TO_PASS.success ++ [test] } }
  else if pre_status = .passed ∧ post_status = .passed then
    { acc with PASS_TO_PASS :=
        { acc.PASS_TO_PASS with success := acc.PASS_TO_PASS.success ++ [test] } }
  else if pre_status = .failed ∧ post_status = .failed then
    { acc with FAIL_TO_FAIL :=
        { acc.FAIL_TO_FAIL with failure := acc.FAIL_TO_FAIL.failure ++ [test] } }
  else if pre_status = .passed ∧ post_status = .failed then
    { acc with PASS_TO_FAIL :=
        { acc.PASS_TO_FAIL with failure := acc.PASS_TO_FAIL.failure ++ [test] } }
  else acc

/-- `all_tests_run = set(pre_patch_results.keys()) | set(post_patch_results.keys())`,
as a deduplicated list. -/
def all_tests_run (pre post : StatusMap) : List Str :=
  (keys pre ++ keys post).dedup

/-- `sorted(list(all_tests_run))`: the union of the key sets in sorted order
(Python sorts strings lexicographically by code point, which is the `≤` of
`List Char`). -/
def sortedTests (pre post : StatusMap) : List Str :=
  (all_tests_run pre post).insertionSort (· ≤ ·)

/-- The whole classification loop of `main`: fold `classifyStep` over the
sorted union of the two key sets, starting from the empty record. -/
def categorize (pre post : StatusMap) : TestsStatus :=
  (sortedTests pre post).foldl (classifyStep pre post) initTestsStatus

/-- Lines 293-298 of `main`: `resolved` is set to `True` exactly when
`fail_to_pass` is non-empty (Python truthiness) and both failure lists are
empty; otherwise it keeps its initial value `False`. -/
def resolvedVerdict (pre post : StatusMap) : Bool :=
  let ts := categorize pre post
  !ts.FAIL_TO_PASS.success.isEmpty &&
    ts.FAIL_TO_FAIL.failure.isEmpty && ts.PASS_TO_FAIL.failure.isEmpty

/-- Total number of occurrences of `t` across all eight bucket lists of a
`tests_status` record. -/
def occurrences (ts : TestsStatus) (t : Str) : Nat :=
  (ts.FAIL_TO_PASS.success.count t + ts.FAIL_TO_PASS.failure.count t) +
  (ts.PASS_TO_PASS.success.count t + ts.PASS_TO_PASS.failure.count t) +
  (ts.FAIL_TO_FAIL.success.count t + ts.FAIL_TO_FAIL.failure.count t) +
  (ts.PASS_TO_FAIL.success.count t + ts.PASS_TO_FAIL.failure.count t)

/-- `write_results_and_exit(success)`: it tries to dump the `results` dict to
`results.json`; a write failure is caught and printed, and then the process
exits with `0 if success else 1`.  `writeOk` records whether the dump
succeeded; the exit code is computed exactly as in the source, where the
`except` branch only prints. -/
def write_results_and_exit (success : Bool) (writeOk : Bool) : Nat :=
  if success then 0 else 1

/-- The tail of `main` (lines 297-309): after classification the process
calls `write_results_and_exit(True)` when the verdict holds and
`write_results_and_exit(False)` otherwise. -/
def main_exit_code (pre post : StatusMap) (writeOk : Bool) : Nat :=
  if resolvedVerdict pre post then write_results_and_exit true writeOk
  else write_results_and_exit false writeOk

/-- `apply_patch(patch_path)` (lines 90-104) over an abstract repository state
`σ`: when the patch file does not exist the function returns `True` at once,
running no command; otherwise it runs `git apply`, an abstract state
transformer returning the new state and the success flag. -/
def apply_patch {σ : Type} (patchExists : Bool) (gitApply : σ → σ × Bool)
    (s : σ) : σ × Bool :=
  if !patchExists then (s, true) else gitApply s

/-- The hard-coded fallback scope `DEFAULT_TEST_FILES` of
`get_modified_test_files_from_patch`. -/
def DEFAULT_TEST_FILES : List Str :=
  ["tests/reference.py".data, "tests/test_kerns.py".data,
    "tests/test_likelihoods.py".data]

/-- One line of the loop body of `get_modified_test_files_from_patch`
(lines 121-131): a line starting with `"--- a/"` or `"+++ b/"` yields
`line.split(' ', 2)[1].strip()` with a leading `"a/"` or `"b/"` removed,
and the path is kept only when it ends in `".py"`.  (On such lines the
second space-separated token always exists, so the full split and the
`maxsplit=2` split agree at index 1.) -/
def extract_patch_path (line : Str) : Option Str :=
  if pyStartsWith line "--- a/".data || pyStartsWith line "+++ b/".data then
    let path := pyStrip ((pySplit ' ' line).getD 1 [])
    let path :=
      if pyStartsWith path "a/".data || pyStartsWith path "b/".data then
        path.drop 2
      else path
    if pyEndsWith path ".py".data then some path else none
  else none

/-- `get_modified_test_files_from_patch(patch_path)` (lines 106-145): `none`
models a missing (`not patch_path.is_file()`) or unreadable patch, both of
which return the default list; otherwise the qualifying paths of all lines
are collected into a set and returned sorted, unless the set is empty, in
which case the default list is returned. -/
def get_modified_test_files_from_patch : Option (List Str) → List Str
  | none => DEFAULT_TEST_FILES
  | some lines =>
    let file_list :=
      ((lines.filterMap extract_patch_path).dedup).insertionSort (· ≤ ·)
    if file_list = [] then DEFAULT_TEST_FILES else file_list

/-- Node-identifier construction of `parse_junit_xml_report` (lines 159-183):
for a non-empty `classname` holding any upper-case character, the last
dot-separated segment is the class name and the rest the module path (the
class name alone when there is no rest); for any other non-empty `classname`
the whole of it is a module path; an empty `classname` leaves the bare test
name.  (Lean's `Char.isUpper` is the ASCII restriction of Python's
`str.isupper`, which is what the harness's identifiers use.) -/
def build_nodeid (class_name test_name : Str) : Str :=
  if class_name ≠ [] then
    if class_name.any Char.isUpper then
      let parts := pySplit '.' class_name
      let module_path_parts := parts.dropLast
      let class_name_only := parts.getLastD []
      let file_path :=
        if module_path_parts ≠ [] then
          pyJoin "/".data module_path_parts ++ ".py".data
        else class_name_only ++ ".py".data
      file_path ++ "::".data ++ class_name_only ++ "::".data ++ test_name
    else
      pyJoin "/".data (pySplit '.' class_name) ++ ".py".data
        ++ "::".data ++ test_name
  else test_name

/-- The node identifier as the specification words it: the class-style form is
chosen when the grouping "contains an upper-case-led segment" (a dot-separated
segment whose first character is upper-case), and otherwise the whole grouping
is a flat module path. -/
def nodeid_specC7 (class_name test_name : Str) : Str :=
  let parts := pySplit '.' class_name
  if parts.any (fun seg => (seg.headD ' ').isUpper) then
    pyJoin "/".data parts.dropLast ++ ".py".data
      ++ "::".data ++ parts.getLastD [] ++ "::".data ++ test_name
  else
    pyJoin "/".data parts ++ ".py".data ++ "::".data ++ test_name

/-- The node identifier as the amended claim words it: the class-style form is
chosen when the non-empty grouping contains any upper-case character anywhere
(with the class name itself serving as the module path when the grouping has a
single segment); any other non-empty grouping is a flat module path; an empty
grouping yields the bare test name. -/
def nodeid_amendedC7 (class_name test_name : Str) : Str :=
  if class_name = [] then test_name
  else if class_name.any Char.isUpper then
    let parts := pySplit '.' class_name
    let cls := parts.getLastD []
    let file_path :=
      if parts.dropLast = [] then cls ++ ".py".data
      else pyJoin "/".data parts.dropLast ++ ".py".data
    file_path ++ "::".data ++ cls ++ "::".data ++ test_name
  else
    pyJoin "/".data (pySplit '.' class_name) ++ ".py".data
      ++ "::".data ++ test_name

/-- Status assignment of `parse_junit_xml_report` (lines 185-194) for one
`<testcase>` element, given which marker children are present: a `failure`
child wins, then an `error` child, then a testcase without a `skipped` child
is `passed`; a testcase whose only marker is `skipped` yields no entry. -/
def testcase_status (hasFailure hasError hasSkipped : Bool) : Option Status :=
  if hasFailure then some .failed
  else if hasError then some .error
  else if hasSkipped = false then some .passed
  else none

/-- One `<testcase>` element of the JUnit XML report: its `classname` and
`name` attributes and which of the three marker children it holds. -/
structure TestCase where
  classname : Str
  name : Str
  hasFailure : Bool
  hasError : Bool
  hasSkipped : Bool
deriving DecidableEq, Repr

/-- Python `d[k] = v` on the association-list embedding of a dict: replace
the existing binding or append a new one. -/
def dictSet (m : StatusMap) (k : Str) (v : Status) : StatusMap :=
  match m with
  | [] => [(k, v)]
  | p :: rest => if p.1 == k then (k, v) :: rest else p :: dictSet rest k v

/-- The result-collection loop of `parse_junit_xml_report` (lines 158-194):
each testcase's node identifier is built and `test_results[nodeid]` is
assigned its status, skipped-only testcases contributing nothing. -/
def parse_junit_xml_report (cases : List TestCase) : StatusMap :=
  cases.foldl
    (fun acc tc =>
      match testcase_status tc.hasFailure tc.hasError tc.hasSkipped with
      | some st => dictSet acc (build_nodeid tc.classname tc.name) st
      | none => acc)
    []

/-! ### Helper lemmas about the classification fold -/

/-- The classification step never touches the failure lists of the first two
categories nor the success lists of the last two. -/
theorem classifyStep_offLists (pre post : StatusMap) (acc : TestsStatus)
    (u : Str) :
    (classifyStep pre post acc u).FAIL_TO_PASS.failure =
        acc.FAIL_TO_PASS.failure ∧
      (classifyStep pre post acc u).PASS_TO_PASS.failure =
        acc.PASS_TO_PASS.failure ∧
      (classifyStep pre post acc u).FAIL_TO_FAIL.success =
        acc.FAIL_TO_FAIL.success ∧
      (classifyStep pre post acc u).PASS_TO_FAIL.success =
        acc.PASS_TO_FAIL.success := by
  simp only [classifyStep]
  split_ifs <;> simp

/-- Fold form of `classifyStep_offLists`. -/
theorem foldl_offLists (pre post : StatusMap) (L : List Str)
    (acc : TestsStatus) :
    (L.foldl (classifyStep pre post) acc).FAIL_TO_PASS.failure =
        acc.FAIL_TO_PASS.failure ∧
      (L.foldl (classifyStep pre post) acc).PASS_TO_PASS.failure =
        acc.PASS_TO_PASS.failure ∧
      (L.foldl (classifyStep pre post) acc).FAIL_TO_FAIL.success =
        acc.FAIL_TO_FAIL.success ∧
      (L.foldl (classifyStep pre post) acc).PASS_TO_FAIL.success =
        acc.PASS_TO_FAIL.success := by
  induction L generalizing acc with
  | nil => exact ⟨rfl, rfl, rfl, rfl⟩
  | cons u L ih =>
    obtain ⟨h1, h2, h3, h4⟩ := classifyStep_offLists pre post acc u
    obtain ⟨g1, g2, g3, g4⟩ := ih (classifyStep pre post acc u)
    exact ⟨g1.trans h1, g2.trans h2, g3.trans h3, g4.trans h4⟩

/-- A `dict.get` on a key absent from the map returns the default. -/
theorem dictGet_of_not_mem (m : StatusMap) (t : Str) (d : Status)
    (h : t ∉ keys m) : dictGet m t d = d := by
  unfold dictGet
  have hnone : m.find? (fun p => p.1 == t) = none := by
    rw [List.find?_eq_none]
    intro p hp
    simp only [beq_iff_eq]
    exact fun he => h (he ▸ List.mem_map_of_mem Prod.fst hp)
  rw [hnone]

/-- Membership in the `PASS_TO_FAIL` failure list survives a classification
step. -/
theorem ptf_subset_classifyStep (pre post : StatusMap) (acc : TestsStatus)
    (u t : Str) (h : t ∈ acc.PASS_TO_FAIL.failure) :
    t ∈ (classifyStep pre post acc u).PASS_TO_FAIL.failure := by
  simp only [classifyStep]
  split_ifs <;> simp [h]

/-- Membership in the `PASS_TO_FAIL` failure list survives the whole fold. -/
theorem ptf_subset_foldl (pre post : StatusMap) (L : List Str)
    (acc : TestsStatus) (t : Str) (h : t ∈ acc.PASS_TO_FAIL.failure) :
    t ∈ (L.foldl (classifyStep pre post) acc).PASS_TO_FAIL.failure := by
  induction L generalizing acc with
  | nil => exact h
  | cons u L ih => exact ih _ (ptf_subset_classifyStep pre post acc u t h)

/-- A test whose effective statuses are `passed` before and `failed` after is
appended to the `PASS_TO_FAIL` failure list when the fold reaches it. -/
theorem ptf_mem_foldl (pre post : StatusMap) (L : List Str)
    (acc : TestsStatus) (t : Str)
    (hpre : dictGet pre t .passed = .passed)
    (hpost : dictGet post t .failed = .failed) (ht : t ∈ L) :
    t ∈ (L.foldl (classifyStep pre post) acc).PASS_TO_FAIL.failure := by
  induction L generalizing acc with
  | nil => cases ht
  | cons u L ih =>
    rcases List.mem_cons.mp ht with rfl | hmem
    · rw [List.foldl_cons]
      apply ptf_subset_foldl
      simp [classifyStep, hpre, hpost]
    · rw [List.foldl_cons]
      exact ih _ hmem

/-! ### The claims -/

/-- Claim C1: for every pair of status maps, the final verdict is
`resolved = true` iff the `FAIL_TO_PASS` success list is non-empty and the
`FAIL_TO_FAIL` and `PASS_TO_FAIL` failure lists are both empty. -/
theorem c1_resolved_iff (pre post : StatusMap) :
    resolvedVerdict pre post = true ↔
      (categorize pre post).FAIL_TO_PASS.success ≠ [] ∧
        (categorize pre post).FAIL_TO_FAIL.failure = [] ∧
        (categorize pre post).PASS_TO_FAIL.failure = [] := by
  simp [resolvedVerdict, List.isEmpty_iff, and_assoc]

/-- Claim C2 (failing evaluation): a test whose `pre` status is `error` is
placed in none of the four category buckets, not in exactly one — the
classification chain only matches the literal statuses `failed` and
`passed`. -/
theorem c2_error_in_no_bucket :
    occurrences (categorize [("a.py::t1".data, Status.error)] [])
      "a.py::t1".data = 0 := by decide

/-- Claim C3 (failing evaluation): `error` is not normalized to the
non-passing bucket.  With `pre = error, post = passed` the test is not in
`FAIL_TO_PASS`; with `pre = passed, post = error` it is not in
`PASS_TO_FAIL`; and a run where one test goes `failed → passed` while
another goes `passed → error` is still `resolved`, although the claim would
classify the second test as a `PASS_TO_FAIL` regression. -/
theorem c3_error_not_normalized :
    (categorize [("a.py::t1".data, Status.error)]
        [("a.py::t1".data, Status.passed)]).FAIL_TO_PASS.success = [] ∧
      (categorize [("a.py::t1".data, Status.passed)]
        [("a.py::t1".data, Status.error)]).PASS_TO_FAIL.failure = [] ∧
      resolvedVerdict
        [("a.py::t1".data, Status.failed), ("a.py::t2".data, Status.passed)]
        [("a.py::t1".data, Status.passed), ("a.py::t2".data, Status.error)]
        = true := by decide

/-- Claim C4: an identifier absent from `pre` gets effective pre-status
`passed`, one absent from `post` gets effective post-status `failed`, and a
test present only in `post` with status `failed` lands in the `PASS_TO_FAIL`
failure list. -/
theorem c4_missing_defaults (pre post : StatusMap) (t : Str) :
    (t ∉ keys pre → dictGet pre t .passed = .passed) ∧
      (t ∉ keys post → dictGet post t .failed = .failed) ∧
      (t ∉ keys pre → t ∈ keys post → dictGet post t .failed = .failed →
        t ∈ (categorize pre post).PASS_TO_FAIL.failure) := by
  refine ⟨fun h => dictGet_of_not_mem pre t _ h,
    fun h => dictGet_of_not_mem post t _ h, fun h1 h2 h3 => ?_⟩
  apply ptf_mem_foldl pre post _ _ t (dictGet_of_not_mem pre t _ h1) h3
  unfold sortedTests all_tests_run
  rw [(List.perm_insertionSort _ _).mem_iff, List.mem_dedup]
  exact List.mem_append_right _ h2

/-- Witness for C4 at the spec's own scenario: `"b.py::t3"` present only in
`post` as `failed` is classified `PASS_TO_FAIL`. -/
theorem c4_missing_defaults_witness :
    ("b.py::t3".data ∉ keys ([] : StatusMap)) ∧
      ("b.py::t3".data ∈ keys [("b.py::t3".data, Status.failed)]) ∧
      "b.py::t3".data ∈
        (categorize [] [("b.py::t3".data, Status.failed)]).PASS_TO_FAIL.failure :=
  ⟨by decide, by decide,
    (c4_missing_defaults [] [("b.py::t3".data, Status.failed)]
      "b.py::t3".data).2.2 (by decide) (by decide) (by decide)⟩

/-- Claim C5 (counterexample): when persisting the record fails
(`writeOk = false`) but the verdict was reached with `success = True`, the
process still exits with status `0` — the write failure is caught, printed,
and ignored by the exit code. -/
theorem c5_counterexample : write_results_and_exit true false = 0 := rfl

/-- Claim C5 as amended: on the classification path the exit status is `0`
iff `resolved` is true; the persistence outcome does not influence it. -/
theorem c5_exit_iff_resolved (pre post : StatusMap) (writeOk : Bool) :
    main_exit_code pre post writeOk = 0 ↔ resolvedVerdict pre post = true := by
  cases h : resolvedVerdict pre post <;>
    simp [main_exit_code, write_results_and_exit, h]

/-- Claim C6: the scope resolver maps a missing or unreadable patch to the
default scope, a patch with no qualifying header path to the default scope,
and otherwise returns a sorted, duplicate-free list holding exactly the
qualifying paths of the diff headers. -/
theorem c6_scope_resolver (lines : List Str) (s : Str) :
    get_modified_test_files_from_patch none = DEFAULT_TEST_FILES ∧
      (lines.filterMap extract_patch_path = [] →
        get_modified_test_files_from_patch (some lines) = DEFAULT_TEST_FILES) ∧
      (lines.filterMap extract_patch_path ≠ [] →
        (get_modified_test_files_from_patch (some lines)).Sorted (· ≤ ·) ∧
          (get_modified_test_files_from_patch (some lines)).Nodup ∧
          (s ∈ get_modified_test_files_from_patch (some lines) ↔
            s ∈ lines.filterMap extract_patch_path)) := by
  refine ⟨rfl, fun h => by simp [get_modified_test_files_from_patch, h],
    fun h => ?_⟩
  have hne : ((lines.filterMap extract_patch_path).dedup).insertionSort
      (· ≤ ·) ≠ [] := by
    intro h0
    have hp := List.perm_insertionSort (α := Str) (· ≤ ·)
      (lines.filterMap extract_patch_path).dedup
    rw [h0] at hp
    exact h ((List.dedup_eq_nil _).mp hp.symm.eq_nil)
  have hres : get_modified_test_files_from_patch (some lines) =
      ((lines.filterMap extract_patch_path).dedup).insertionSort (· ≤ ·) := by
    simp [get_modified_test_files_from_patch, hne]
  rw [hres]
  exact ⟨List.sorted_insertionSort _ _,
    (List.perm_insertionSort _ _).nodup_iff.mpr (List.nodup_dedup _),
    (List.perm_insertionSort _ _).mem_iff.trans List.mem_dedup⟩

/-- Witness for C6 on a two-header patch: the result is sorted,
duplicate-free, and holds the extracted path. -/
theorem c6_scope_resolver_witness :
    (["--- a/b.py".data, "+++ b/a.py".data].filterMap extract_patch_path
        ≠ []) ∧
      ((get_modified_test_files_from_patch
          (some ["--- a/b.py".data, "+++ b/a.py".data])).Sorted (· ≤ ·) ∧
        (get_modified_test_files_from_patch
          (some ["--- a/b.py".data, "+++ b/a.py".data])).Nodup ∧
        ("a.py".data ∈ get_modified_test_files_from_patch
            (some ["--- a/b.py".data, "+++ b/a.py".data]) ↔
          "a.py".data ∈
            ["--- a/b.py".data, "+++ b/a.py".data].filterMap
              extract_patch_path)) :=
  ⟨by decide,
    (c6_scope_resolver ["--- a/b.py".data, "+++ b/a.py".data]
      "a.py".data).2.2 (by decide)⟩

/-- Claim C7 (counterexample): for the grouping `"tests.myTest"` — which
contains an upper-case character but no upper-case-led segment — the code
takes the class-style branch and produces `"tests.py::myTest::t"`, while the
claim's rule produces the flat `"tests/myTest.py::t"`. -/
theorem c7_counterexample :
    build_nodeid "tests.myTest".data "t".data ≠
        nodeid_specC7 "tests.myTest".data "t".data ∧
      build_nodeid "tests.myTest".data "t".data =
        "tests.py::myTest::t".data ∧
      nodeid_specC7 "tests.myTest".data "t".data =
        "tests/myTest.py::t".data := by decide

/-- Claim C7 as amended: the class-style identifier is chosen when the
non-empty grouping contains any upper-case character anywhere (not only at a
segment head), with the class name doubling as the module path for
single-segment groupings; other non-empty groupings give the flat form, and
an empty grouping gives the bare test name. -/
theorem c7_nodeid_amended (class_name test_name : Str) :
    build_nodeid class_name test_name =
      nodeid_amendedC7 class_name test_name := by
  by_cases h : class_name = []
  · simp [build_nodeid, nodeid_amendedC7, h]
  · by_cases hu : class_name.any Char.isUpper
    · by_cases hm : (pySplit '.' class_name).dropLast = [] <;>
        simp [build_nodeid, nodeid_amendedC7, h, hu, hm]
    · simp [build_nodeid, nodeid_amendedC7, h, hu]

/-- Claim C8: applying a missing patch file succeeds as a no-op — the
function returns `True` without running any command, leaving the repository
state unchanged. -/
theorem c8_apply_patch_missing (σ : Type) (gitApply : σ → σ × Bool) (s : σ) :
    apply_patch false gitApply s = (s, true) := rfl

/-- Claim C9: marker precedence of the report parser — a `failure` child
yields `failed` whatever else is present; otherwise an `error` child yields
`error` whatever else is present; a testcase with no marker is `passed`; a
testcase whose only marker is `skipped` yields no status, and contributes
nothing to the status map. -/
theorem c9_marker_precedence :
    (∀ e s : Bool, testcase_status true e s = some .failed) ∧
      (∀ s : Bool, testcase_status false true s = some .error) ∧
      testcase_status false false false = some .passed ∧
      testcase_status false false true = none ∧
      (∀ (cs : List TestCase) (c n : Str),
        parse_junit_xml_report (cs ++ [⟨c, n, false, false, true⟩]) =
          parse_junit_xml_report cs) := by
  refine ⟨by decide, by decide, rfl, rfl, fun cs c n => ?_⟩
  simp [parse_junit_xml_report, List.foldl_append, testcase_status]

/-- Claim C10: after classification the `FAIL_TO_PASS` and `PASS_TO_PASS`
categories have an empty failure list and the `FAIL_TO_FAIL` and
`PASS_TO_FAIL` categories have an empty success list — the loop only ever
appends to the one fixed sub-list of each category. -/
theorem c10_fixed_sublists (pre post : StatusMap) :
    (categorize pre post).FAIL_TO_PASS.failure = [] ∧
      (categorize pre post).PASS_TO_PASS.failure = [] ∧
      (categorize pre post).FAIL_TO_FAIL.success = [] ∧
      (categorize pre post).PASS_TO_FAIL.success = [] :=
  foldl_offLists pre post (sortedTests pre post) initTestsStatus

end RunVerification
